import Mathlib

/-!
Verification of `circular_plate_cone.py` (CirclePrints).

The script builds a circular base plate with a concentric cylinder, an
optional through-hole and an engraved dimension label, then exports the
solid to STL/STEP files and prints a summary.  We embed:

* the resolved parameters (`Params`, radii, font size, text offset);
* the text/filename formatting (`text_str`, `filename_base`), with an
  executable decimal formatter mirroring Python's `f"{x:.0f}"`,
  `f"{x:.1f}"` and `int(x)`;
* the geometry-construction sequence as a list of extrude steps
  (`buildSteps`) together with a point-set semantics (`solid`), where
  text glyph outlines — produced by the font engine, external to the
  script — are an abstract parameter (`Glyph`);
* the export/report tail of the script as a trace function
  (`runProgram`) recording written files and printed lines.

All lengths are rationals (the script works in floating-point
millimetres; every concrete value the claims touch is exactly
representable).
-/

namespace CirclePrints

/-- The five numeric command-line parameters of the script. -/
structure Params where
  plate_diameter : ℚ
  cylinder_diameter : ℚ
  cylinder_height : ℚ
  plate_thickness : ℚ
  hole_diameter : ℚ

/-- The argparse defaults: plate 11.0, cylinder 4.0, height 10.0,
thickness 1.0, hole 1.0. -/
def defaultParams : Params := ⟨11, 4, 10, 1, 1⟩

/-- `plate_radius = plate_diameter / 2.0`. -/
def plate_radius (p : Params) : ℚ := p.plate_diameter / 2

/-- `cylinder_radius = cylinder_diameter / 2.0`. -/
def cylinder_radius (p : Params) : ℚ := p.cylinder_diameter / 2

/-- `hole_radius = hole_diameter / 2.0`. -/
def hole_radius (p : Params) : ℚ := p.hole_diameter / 2

/-- `text_height = 0.8` (mm), the engraved text depth. -/
def text_height : ℚ := 4/5

/-- `font_size = (plate_radius - cylinder_radius) * 0.6`. -/
def font_size (p : Params) : ℚ := (plate_radius p - cylinder_radius p) * (3/5)

/-- `text_offset_y = (cylinder_radius + plate_radius) / 2`. -/
def text_offset_y (p : Params) : ℚ := (cylinder_radius p + plate_radius p) / 2

/-! ### Decimal formatting

Executable models of Python's decimal formatting used by the script:
`int(x)` truncates toward zero; `f"{x:.0f}"` and `f"{x:.1f}"` round to
the nearest value with the given number of decimals, ties to even. -/

/-- Decimal digits of `n`, most significant first; `fuel` bounds the
recursion (any `fuel > n` is exact). -/
def natDigitsAux : ℕ → ℕ → List Char
  | 0, _ => []
  | fuel+1, n =>
    if n < 10 then [Nat.digitChar n]
    else natDigitsAux fuel (n / 10) ++ [Nat.digitChar (n % 10)]

/-- Decimal string of a natural number. -/
def natDigitsStr (n : ℕ) : String := ⟨natDigitsAux (n + 1) n⟩

/-- Decimal string of an integer (Python `str(int(...))`). -/
def intStr (i : ℤ) : String := (if i < 0 then "-" else "") ++ natDigitsStr i.natAbs

/-- Round to the nearest integer, ties to even (the rounding used by
Python's fixed-point float formatting). -/
def roundHalfEven (q : ℚ) : ℤ :=
  let f := ⌊q⌋
  if q - f < 1/2 then f
  else if 1/2 < q - f then f + 1
  else if f % 2 = 0 then f else f + 1

/-- Python `f"{d:.0f}"`: round to an integer, ties to even. -/
def fixed0 (d : ℚ) : String := intStr (roundHalfEven d)

/-- Python `f"{d:.1f}"`: round to one decimal place, ties to even. -/
def fixed1 (d : ℚ) : String :=
  let n := roundHalfEven (10 * d)
  (if n < 0 then "-" else "") ++
    natDigitsStr (n.natAbs / 10) ++ "." ++ natDigitsStr (n.natAbs % 10)

/-- Python `int(x)`: truncation toward zero. -/
def ratTrunc (q : ℚ) : ℤ := q.num.tdiv q.den

/-- Line 96: `text_str = f"{plate_diameter:.0f}" if plate_diameter ==
int(plate_diameter) else f"{plate_diameter:.1f}"`.  A float equals its
`int` truncation exactly when it is a whole number, i.e. when the
rational has denominator 1. -/
def text_str (d : ℚ) : String := if d.den = 1 then fixed0 d else fixed1 d

/-- Line 114: `filename_base =
f"{int(cylinder_diameter)}mmCircle-{int(plate_diameter)}mm"`. -/
def filename_base (cylinder_diameter plate_diameter : ℚ) : String :=
  intStr (ratTrunc cylinder_diameter) ++ "mmCircle-" ++
    intStr (ratTrunc plate_diameter) ++ "mm"

/-- Number of digits after the decimal point of a formatted string
(0 when there is no point). -/
def decimalPlaces (s : String) : ℕ :=
  if s.data.contains '.' then (s.data.reverse.takeWhile (fun c => c ≠ '.')).length
  else 0

/-! ### Geometry

The `BuildPart` block (lines 73–99) is a sequence of sketch+extrude
steps, each fusing into or subtracting from the accumulated solid.  We
record the sequence syntactically (`buildSteps`) and give it a
point-set semantics over `ℚ³`.  Circle sketches have exact semantics;
the outline of a `Text` sketch comes from the font engine, which is
external to the script, so glyph outlines are an abstract parameter
`Glyph` (text string and font size ↦ planar region, centred per
`Align.CENTER`). -/

abbrev Point2 := ℚ × ℚ

abbrev Point3 := ℚ × ℚ × ℚ

/-- Abstract font semantics: the planar outline region of a text
string rendered at a font size, centred at the origin. -/
abbrev Glyph := String → ℚ → Set Point2

/-- A 2D sketch of the script: a centred circle, or a text outline
placed at a y-offset (`Locations([(0, text_offset_y)])`). -/
inductive SketchSpec where
  | circle (radius : ℚ)
  | text (str : String) (fontSize : ℚ) (offsetY : ℚ)

/-- Extrusion mode: default fuse, or `Mode.SUBTRACT`. -/
inductive ExtrudeMode where
  | add
  | subtract
deriving DecidableEq

/-- One `BuildSketch`+`extrude` step: the sketch, the z of its plane
(`Plane.XY.offset(planeZ)`), the extrusion amount, and the mode. -/
structure Step where
  sketch : SketchSpec
  planeZ : ℚ
  amount : ℚ
  mode : ExtrudeMode

/-- Lines 75–77: circle of `plate_radius` on `Plane.XY`, extruded by
`plate_thickness`, fused. -/
def plateStep (p : Params) : Step :=
  ⟨.circle (plate_radius p), 0, p.plate_thickness, .add⟩

/-- Lines 80–82: circle of `cylinder_radius` on
`Plane.XY.offset(plate_thickness)`, extruded by `cylinder_height`,
fused. -/
def cylinderStep (p : Params) : Step :=
  ⟨.circle (cylinder_radius p), p.plate_thickness, p.cylinder_height, .add⟩

/-- Lines 86–88: circle of `hole_radius` on `Plane.XY`, extruded by
`plate_thickness + cylinder_height` in `Mode.SUBTRACT`. -/
def holeStep (p : Params) : Step :=
  ⟨.circle (hole_radius p), 0, p.plate_thickness + p.cylinder_height, .subtract⟩

/-- Lines 95–99: `Text(text_str, font_size, align=CENTER)` at
`(0, text_offset_y)` on `Plane.XY`, extruded by `text_height` in
`Mode.SUBTRACT`. -/
def textStep (p : Params) : Step :=
  ⟨.text (text_str p.plate_diameter) (font_size p) (text_offset_y p), 0,
    text_height, .subtract⟩

/-- The build sequence of lines 73–99: plate, cylinder, the hole step
guarded by `if hole_diameter > 0`, then the text step. -/
def buildSteps (p : Params) : List Step :=
  [plateStep p, cylinderStep p] ++
    (if 0 < p.hole_diameter then [holeStep p] else []) ++ [textStep p]

/-- Semantics of a sketch as a planar region. -/
def sketchRegion (glyph : Glyph) : SketchSpec → Set Point2
  | .circle r => {q | q.1 ^ 2 + q.2 ^ 2 ≤ r ^ 2}
  | .text s fs oy => {q | (q.1, q.2 - oy) ∈ glyph s fs}

/-- The (closed) prism swept by extruding a step's sketch from its
plane by its amount. -/
def stepPrism (glyph : Glyph) (st : Step) : Set Point3 :=
  {v | (v.1, v.2.1) ∈ sketchRegion glyph st.sketch ∧
    st.planeZ ≤ v.2.2 ∧ v.2.2 ≤ st.planeZ + st.amount}

/-- One step acting on the accumulated solid: fuse or subtract. -/
def applyStep (glyph : Glyph) (S : Set Point3) (st : Step) : Set Point3 :=
  if st.mode = ExtrudeMode.add then S ∪ stepPrism glyph st
  else S \ stepPrism glyph st

/-- The part built by the script: the build sequence folded over the
empty solid. -/
def solid (glyph : Glyph) (p : Params) : Set Point3 :=
  (buildSteps p).foldl (applyStep glyph) ∅

/-- A font whose rendered text fits vertically inside its em box: a
glyph outline at font size `fs` lies within `|y| ≤ fs / 2` of its
centre.  Real fonts used by `Text(..., align=CENTER)` satisfy this. -/
def BoundedGlyph (glyph : Glyph) : Prop :=
  ∀ s fs q, q ∈ glyph s fs → |q.2| ≤ fs / 2

/-- A concrete font model for witnesses: each glyph outline is a box of
height `fs` and width `fs` per character, centred. -/
def boxGlyph : Glyph := fun s fs =>
  {q | |q.1| ≤ fs * s.length / 2 ∧ |q.2| ≤ fs / 2}

/-! ### The export / report tail of the script (lines 104–154)

We model the observable effects — files written and lines printed — as
a trace.  Printed lines are kept structured (constructor + the values
interpolated into the f-string) rather than as rendered strings; the
export filenames, which the claims compare byte-for-byte, are real
strings.  The outcome of each external writer call is a parameter
(`Except`): `.ok` models a completed write, `.error e` models the
writer raising an exception with message `e`. -/

/-- One printed line, with the values the script interpolates. -/
inductive OutLine where
  | showNote (available : Bool)
  | exported (filename : String)
  | exportError (format : String) (msg : String)
  | exportSkipped
  | paramsHeader
  | plateDiameterLine (v : ℚ)
  | plateThicknessLine (v : ℚ)
  | cylinderDiameterLine (v : ℚ)
  | cylinderHeightLine (v : ℚ)
  | holeDiameterLine (v : ℚ) (solidNote : Bool)
  | textDepthLine (v : ℚ)
  | totalHeightLine (v : ℚ)
  | printabilityHeader
  | engravedNote (wholeForm : Bool) (v : ℚ)
  | buildPlateFit
deriving DecidableEq

/-- The observable effects of one run: files written, lines printed. -/
structure RunResult where
  files : List String
  printed : List OutLine

/-- Line 115: `stl_filename = f"{filename_base}.stl"`. -/
def stl_filename (p : Params) : String :=
  filename_base p.cylinder_diameter p.plate_diameter ++ ".stl"

/-- Line 116: `step_filename = f"{filename_base}.step"`. -/
def step_filename (p : Params) : String :=
  filename_base p.cylinder_diameter p.plate_diameter ++ ".step"

/-- One guarded export attempt (a `try`/`except` block): on success the
file is written and a success line printed; on an exception an error
line is printed and no file results.  Either way control continues. -/
def exportAttempt (format : String) (filename : String)
    (outcome : Except String Unit) : List String × List OutLine :=
  match outcome with
  | .ok _ => ([filename], [.exported filename])
  | .error e => ([], [.exportError format e])

/-- Lines 112–140: the export block, skipped under `--no-export`;
otherwise the STL attempt followed unconditionally by the STEP
attempt. -/
def exportPhase (p : Params) (no_export : Bool)
    (stlOutcome stepOutcome : Except String Unit) : List String × List OutLine :=
  if no_export then ([], [.exportSkipped])
  else
    let stl := exportAttempt "STL" (stl_filename p) stlOutcome
    let step := exportAttempt "STEP" (step_filename p) stepOutcome
    (stl.1 ++ step.1, stl.2 ++ step.2)

/-- Lines 142–154: the parameter/dimension summary, printed on every
run. -/
def summaryLines (p : Params) : List OutLine :=
  [.paramsHeader,
   .plateDiameterLine p.plate_diameter,
   .plateThicknessLine p.plate_thickness,
   .cylinderDiameterLine p.cylinder_diameter,
   .cylinderHeightLine p.cylinder_height,
   .holeDiameterLine p.hole_diameter (p.hole_diameter == 0),
   .textDepthLine text_height,
   .totalHeightLine (p.plate_thickness + p.cylinder_height + text_height),
   .printabilityHeader,
   .engravedNote (p.plate_diameter.den == 1) p.plate_diameter,
   .buildPlateFit]

/-- Lines 104–154: the whole tail of the script — the show/availability
note, then the export phase (or the skip message), then the summary. -/
def runProgram (p : Params) (no_export : Bool)
    (stlOutcome stepOutcome : Except String Unit) (showAvailable : Bool) :
    RunResult :=
  let ex := exportPhase p no_export stlOutcome stepOutcome
  ⟨ex.1, [.showNote showAvailable] ++ ex.2 ++ summaryLines p⟩

/-! ### Helper lemmas -/

lemma digitChar_isDigit : ∀ m < 10, (Nat.digitChar m).isDigit := by decide

lemma natDigitsAux_isDigit : ∀ fuel n c, c ∈ natDigitsAux fuel n → c.isDigit := by
  intro fuel
  induction fuel with
  | zero => intro n c hc; simp [natDigitsAux] at hc
  | succ f ih =>
    intro n c hc
    rw [natDigitsAux] at hc
    split at hc
    · next h => rw [List.mem_singleton] at hc; subst hc; exact digitChar_isDigit n h
    · rw [List.mem_append, List.mem_singleton] at hc
      rcases hc with hc | hc
      · exact ih _ _ hc
      · subst hc
        exact digitChar_isDigit _ (Nat.mod_lt n (by norm_num))

lemma dot_not_isDigit : ('.').isDigit = false := by decide

lemma dot_not_mem_natDigitsStr (n : ℕ) : '.' ∉ (natDigitsStr n).data := by
  intro h
  have := natDigitsAux_isDigit (n + 1) n '.' h
  simp [dot_not_isDigit] at this

lemma dot_not_mem_intStr (i : ℤ) : '.' ∉ (intStr i).data := by
  intro h
  rw [intStr, String.data_append] at h
  rcases List.mem_append.mp h with h | h
  · split at h <;> simp_all
  · exact dot_not_mem_natDigitsStr _ h

lemma decimalPlaces_intStr (i : ℤ) : decimalPlaces (intStr i) = 0 := by
  rw [decimalPlaces, if_neg]
  intro h
  exact dot_not_mem_intStr i (List.elem_iff.mp h)

lemma fixed1_data (d : ℚ) :
    (fixed1 d).data =
      ((if roundHalfEven (10 * d) < 0 then "-" else "") ++
        natDigitsStr ((roundHalfEven (10 * d)).natAbs / 10)).data ++
        '.' :: [Nat.digitChar ((roundHalfEven (10 * d)).natAbs % 10)] := by
  rw [fixed1]
  have hm : (roundHalfEven (10 * d)).natAbs % 10 < 10 := Nat.mod_lt _ (by norm_num)
  have : natDigitsStr ((roundHalfEven (10 * d)).natAbs % 10) =
      ⟨[Nat.digitChar ((roundHalfEven (10 * d)).natAbs % 10)]⟩ := by
    rw [natDigitsStr, natDigitsAux, if_pos hm]
  rw [this]
  simp [String.data_append]

lemma decimalPlaces_fixed1 (d : ℚ) : decimalPlaces (fixed1 d) = 1 := by
  have hd : (Nat.digitChar ((roundHalfEven (10 * d)).natAbs % 10)).isDigit :=
    digitChar_isDigit _ (Nat.mod_lt _ (by norm_num))
  have hne : Nat.digitChar ((roundHalfEven (10 * d)).natAbs % 10) ≠ '.' := by
    intro h; rw [h] at hd; simp [dot_not_isDigit] at hd
  rw [decimalPlaces, if_pos]
  · rw [fixed1_data]
    simp [List.takeWhile, hne]
  · rw [List.elem_iff, fixed1_data]
    simp

lemma den_eq_one_intCast (d : ℚ) (h : d.den = 1) : (d.num : ℚ) = d := by
  conv_rhs => rw [← Rat.num_div_den d]
  rw [h]
  simp

lemma roundHalfEven_intCast (n : ℤ) : roundHalfEven (n : ℚ) = n := by
  simp [roundHalfEven]

lemma roundHalfEven_of_den_eq_one (d : ℚ) (h : d.den = 1) :
    roundHalfEven d = d.num := by
  conv_lhs => rw [← den_eq_one_intCast d h]
  exact roundHalfEven_intCast d.num

lemma text_str_of_whole (d : ℚ) (h : d.den = 1) : text_str d = intStr d.num := by
  rw [text_str, if_pos h, fixed0, roundHalfEven_of_den_eq_one d h]

lemma text_str_of_frac (d : ℚ) (h : d.den ≠ 1) : text_str d = fixed1 d := by
  rw [text_str, if_neg h]

lemma mem_solid_iff (glyph : Glyph) (p : Params) (v : Point3) :
    v ∈ solid glyph p ↔
      (v ∈ stepPrism glyph (plateStep p) ∨ v ∈ stepPrism glyph (cylinderStep p)) ∧
      (0 < p.hole_diameter → v ∉ stepPrism glyph (holeStep p)) ∧
      v ∉ stepPrism glyph (textStep p) := by
  by_cases h : 0 < p.hole_diameter <;>
    (simp [solid, buildSteps, h, applyStep, plateStep, cylinderStep, holeStep,
      textStep, Set.mem_union, Set.mem_diff]; try tauto)

lemma solid_eq_of_nonpos (glyph : Glyph) (p : Params) (h : ¬ 0 < p.hole_diameter) :
    solid glyph p =
      (((∅ : Set Point3) ∪ stepPrism glyph (plateStep p)) ∪
        stepPrism glyph (cylinderStep p)) \ stepPrism glyph (textStep p) := by
  simp only [solid, buildSteps, if_neg h]
  rfl

lemma summary_mem_printed (p : Params) (ne : Bool)
    (o1 o2 : Except String Unit) (sa : Bool) :
    ∀ l ∈ summaryLines p, l ∈ (runProgram p ne o1 o2 sa).printed := by
  intro l hl
  simp only [runProgram, List.mem_append]
  exact Or.inr hl

/-- The rational 11.5, realised exactly (23/2 in lowest terms). -/
def elevenPointFive : ℚ := ⟨23, 2, by norm_num, by norm_num⟩

/-- The rational 11.2, realised exactly (56/5 in lowest terms). -/
def elevenPointTwo : ℚ := ⟨56, 5, by norm_num, by norm_num⟩

/-- The rational 11.7, realised exactly (117/10 in lowest terms). -/
def elevenPointSeven : ℚ := ⟨117, 10, by norm_num, by norm_num⟩

lemma elevenPointFive_eq : elevenPointFive = 23 / 2 := by
  rw [← Rat.num_div_den elevenPointFive]
  norm_num [elevenPointFive]

lemma text_str_elevenPointFive : text_str elevenPointFive = "11.5" := by
  have h10 : (10 : ℚ) * elevenPointFive = ((115 : ℤ) : ℚ) := by
    rw [elevenPointFive_eq]; norm_num
  have hr : roundHalfEven (10 * elevenPointFive) = 115 := by
    rw [h10, roundHalfEven_intCast]
  rw [text_str_of_frac _ (by decide)]
  simp only [fixed1, hr]
  decide

/-- A parameter set whose cylinder is wider than its plate. -/
def widePostParams : Params := ⟨4, 11, 10, 1, 1⟩

/-! ### Claims -/

/-- C3: for every plate diameter, the engraved text string is the
diameter formatted with no decimal places when it is a whole number,
and formatted to exactly one decimal place otherwise. -/
theorem C3_text_format (d : ℚ) :
    (d.den = 1 → text_str d = intStr d.num ∧ decimalPlaces (text_str d) = 0) ∧
    (d.den ≠ 1 → text_str d = fixed1 d ∧ decimalPlaces (text_str d) = 1) := by
  constructor
  · intro h
    rw [text_str_of_whole d h]
    exact ⟨rfl, decimalPlaces_intStr d.num⟩
  · intro h
    rw [text_str_of_frac d h]
    exact ⟨rfl, decimalPlaces_fixed1 d⟩

/-- Witness for C3 at the spec's examples: 11.0 yields "11" (no decimal
places) and 11.5 yields "11.5" (one decimal place). -/
theorem C3_text_format_witness :
    ((11 : ℚ).den = 1 ∧ text_str 11 = intStr (11 : ℚ).num ∧
      decimalPlaces (text_str 11) = 0 ∧ text_str 11 = "11") ∧
    (elevenPointFive.den ≠ 1 ∧ decimalPlaces (text_str elevenPointFive) = 1 ∧
      text_str elevenPointFive = "11.5") :=
  ⟨⟨rfl, ((C3_text_format 11).1 rfl).1, ((C3_text_format 11).1 rfl).2,
      by rw [((C3_text_format 11).1 rfl).1]; decide⟩,
    ⟨by decide, ((C3_text_format elevenPointFive).2 (by decide)).2,
      text_str_elevenPointFive⟩⟩

/-- C4: the export filename stem is
`{int(cylinder_diameter)}mmCircle-{int(plate_diameter)}mm`, and a
default invocation (plate 11.0, cylinder 4.0) produces exactly the two
files `4mmCircle-11mm.stl` and `4mmCircle-11mm.step`. -/
theorem C4_filenames :
    (∀ cd pd : ℚ, filename_base cd pd =
      intStr (ratTrunc cd) ++ "mmCircle-" ++ intStr (ratTrunc pd) ++ "mm") ∧
    filename_base defaultParams.cylinder_diameter defaultParams.plate_diameter =
      "4mmCircle-11mm" ∧
    (runProgram defaultParams false (.ok ()) (.ok ()) false).files =
      ["4mmCircle-11mm.stl", "4mmCircle-11mm.step"] := by
  refine ⟨fun cd pd => rfl, by decide, by decide⟩

/-- C5: the STL and STEP exports run under independent exception
handlers: each attempt's outcome is reported, an STL failure does not
prevent the STEP attempt, and the program continues to the summary in
every case. -/
theorem C5_export_independent (p : Params) (o1 o2 : Except String Unit)
    (sa : Bool) :
    (∀ e, o1 = .error e →
      OutLine.exportError "STL" e ∈ (runProgram p false o1 o2 sa).printed) ∧
    (o1 = .ok () →
      OutLine.exported (stl_filename p) ∈ (runProgram p false o1 o2 sa).printed) ∧
    (o2 = .ok () →
      OutLine.exported (step_filename p) ∈ (runProgram p false o1 o2 sa).printed) ∧
    (∀ e, o2 = .error e →
      OutLine.exportError "STEP" e ∈ (runProgram p false o1 o2 sa).printed) ∧
    (∀ l ∈ summaryLines p, l ∈ (runProgram p false o1 o2 sa).printed) := by
  refine ⟨?_, ?_, ?_, ?_, summary_mem_printed p false o1 o2 sa⟩
  · rintro e rfl
    cases o2 <;> simp [runProgram, exportPhase, exportAttempt]
  · rintro rfl
    cases o2 <;> simp [runProgram, exportPhase, exportAttempt]
  · rintro rfl
    cases o1 <;> simp [runProgram, exportPhase, exportAttempt]
  · rintro e rfl
    cases o1 <;> simp [runProgram, exportPhase, exportAttempt]

/-- Witness for C5: with default parameters, a failing STL write and a
succeeding STEP write, the STL error is reported, the STEP file is
still exported, and the summary is still printed. -/
theorem C5_export_independent_witness :
    OutLine.exportError "STL" "disk full" ∈
      (runProgram defaultParams false (.error "disk full") (.ok ()) false).printed ∧
    OutLine.exported (step_filename defaultParams) ∈
      (runProgram defaultParams false (.error "disk full") (.ok ()) false).printed ∧
    OutLine.totalHeightLine
        (defaultParams.plate_thickness + defaultParams.cylinder_height + text_height) ∈
      (runProgram defaultParams false (.error "disk full") (.ok ()) false).printed :=
  ⟨(C5_export_independent defaultParams (.error "disk full") (.ok ()) false).1
      "disk full" rfl,
    (C5_export_independent defaultParams (.error "disk full") (.ok ()) false).2.2.1 rfl,
    (C5_export_independent defaultParams (.error "disk full") (.ok ()) false).2.2.2.2
      _ (by simp [summaryLines])⟩

/-- C6: with `--no-export` set, no output file is written in any run,
while the export-skipped note and the whole parameter/dimension summary
are still printed. -/
theorem C6_no_export (p : Params) (o1 o2 : Except String Unit) (sa : Bool) :
    (runProgram p true o1 o2 sa).files = [] ∧
    OutLine.exportSkipped ∈ (runProgram p true o1 o2 sa).printed ∧
    ∀ l ∈ summaryLines p, l ∈ (runProgram p true o1 o2 sa).printed := by
  refine ⟨rfl, ?_, summary_mem_printed p true o1 o2 sa⟩
  simp [runProgram, exportPhase]

/-- Witness for C6 at the default parameters: no file is written and
the skip note and total-height line are printed. -/
theorem C6_no_export_witness :
    (runProgram defaultParams true (.ok ()) (.ok ()) false).files = [] ∧
    OutLine.exportSkipped ∈
      (runProgram defaultParams true (.ok ()) (.ok ()) false).printed ∧
    OutLine.totalHeightLine
        (defaultParams.plate_thickness + defaultParams.cylinder_height + text_height) ∈
      (runProgram defaultParams true (.ok ()) (.ok ()) false).printed :=
  ⟨(C6_no_export defaultParams (.ok ()) (.ok ()) false).1,
    (C6_no_export defaultParams (.ok ()) (.ok ()) false).2.1,
    (C6_no_export defaultParams (.ok ()) (.ok ()) false).2.2 _ (by simp [summaryLines])⟩

/-- C7: construction is deterministic — the build sequence, the solid
and the whole run trace are functions of the five input parameters
alone, so runs with identical parameters produce identical geometry. -/
theorem C7_deterministic (glyph : Glyph) (p q : Params)
    (h1 : p.plate_diameter = q.plate_diameter)
    (h2 : p.cylinder_diameter = q.cylinder_diameter)
    (h3 : p.cylinder_height = q.cylinder_height)
    (h4 : p.plate_thickness = q.plate_thickness)
    (h5 : p.hole_diameter = q.hole_diameter) :
    buildSteps p = buildSteps q ∧ solid glyph p = solid glyph q ∧
    ∀ ne o1 o2 sa, runProgram p ne o1 o2 sa = runProgram q ne o1 o2 sa := by
  obtain ⟨a, b, c, d, e⟩ := p
  obtain ⟨a', b', c', d', e'⟩ := q
  cases h1; cases h2; cases h3; cases h4; cases h5
  exact ⟨rfl, rfl, fun _ _ _ _ => rfl⟩

/-- Witness for C7 at the default parameters. -/
theorem C7_deterministic_witness :
    buildSteps defaultParams = buildSteps defaultParams ∧
    solid boxGlyph defaultParams = solid boxGlyph defaultParams ∧
    ∀ ne o1 o2 sa,
      runProgram defaultParams ne o1 o2 sa = runProgram defaultParams ne o1 o2 sa :=
  C7_deterministic boxGlyph defaultParams defaultParams rfl rfl rfl rfl rfl

/-- C8: every run prints a total stack height equal to
`plate_thickness + cylinder_height + 0.8` (the fixed text depth),
alongside the resolved parameters and the printability notes. -/
theorem C8_reporter (p : Params) (ne : Bool) (o1 o2 : Except String Unit)
    (sa : Bool) :
    text_height = 4/5 ∧
    OutLine.totalHeightLine (p.plate_thickness + p.cylinder_height + text_height) ∈
      (runProgram p ne o1 o2 sa).printed ∧
    OutLine.plateDiameterLine p.plate_diameter ∈ (runProgram p ne o1 o2 sa).printed ∧
    OutLine.plateThicknessLine p.plate_thickness ∈ (runProgram p ne o1 o2 sa).printed ∧
    OutLine.cylinderDiameterLine p.cylinder_diameter ∈ (runProgram p ne o1 o2 sa).printed ∧
    OutLine.cylinderHeightLine p.cylinder_height ∈ (runProgram p ne o1 o2 sa).printed ∧
    OutLine.holeDiameterLine p.hole_diameter (p.hole_diameter == 0) ∈
      (runProgram p ne o1 o2 sa).printed ∧
    OutLine.printabilityHeader ∈ (runProgram p ne o1 o2 sa).printed ∧
    OutLine.buildPlateFit ∈ (runProgram p ne o1 o2 sa).printed := by
  have hs := summary_mem_printed p ne o1 o2 sa
  exact ⟨rfl, hs _ (by simp [summaryLines]), hs _ (by simp [summaryLines]),
    hs _ (by simp [summaryLines]), hs _ (by simp [summaryLines]),
    hs _ (by simp [summaryLines]), hs _ (by simp [summaryLines]),
    hs _ (by simp [summaryLines]), hs _ (by simp [summaryLines])⟩

/-- C9: the text-engraving step is unconditional: it is in the build
sequence for every parameter set, with font size
`0.6 * (plate_radius - cylinder_radius)` and y-offset
`(cylinder_radius + plate_radius) / 2` computed without any guard, and
when the cylinder is at least as wide as the plate the font size is
zero or negative while the step is still present. -/
theorem C9_text_unconditional (p : Params) :
    textStep p ∈ buildSteps p ∧
    (textStep p).sketch = SketchSpec.text (text_str p.plate_diameter)
      ((plate_radius p - cylinder_radius p) * (3/5))
      ((cylinder_radius p + plate_radius p) / 2) ∧
    (p.plate_diameter ≤ p.cylinder_diameter → font_size p ≤ 0) := by
  refine ⟨by simp [buildSteps], rfl, ?_⟩
  intro h
  have hrc : plate_radius p ≤ cylinder_radius p := by
    rw [plate_radius, cylinder_radius]; linarith
  rw [font_size]
  nlinarith

/-- Witness for C9: with plate diameter 4 and cylinder diameter 11 the
text step is still in the build sequence and its font size is
nonpositive. -/
theorem C9_text_unconditional_witness :
    widePostParams.plate_diameter ≤ widePostParams.cylinder_diameter ∧
    textStep widePostParams ∈ buildSteps widePostParams ∧
    font_size widePostParams ≤ 0 :=
  ⟨by norm_num [widePostParams],
    (C9_text_unconditional widePostParams).1,
    (C9_text_unconditional widePostParams).2.2 (by norm_num [widePostParams])⟩

/-- C10: the filename stem depends only on the integer truncations of
the diameters, so distinct fractional diameters with equal integer
parts collide; and for a non-whole plate diameter the engraved text
(one decimal place) differs from the truncated integer string used in
the filename. -/
theorem C10_filename_truncation :
    (∀ cd pd pd' : ℚ, ratTrunc pd = ratTrunc pd' →
      filename_base cd pd = filename_base cd pd') ∧
    (∀ pd : ℚ, pd.den ≠ 1 → text_str pd ≠ intStr (ratTrunc pd)) := by
  constructor
  · intro cd pd pd' h
    rw [filename_base, filename_base, h]
  · intro pd h heq
    have h1 : decimalPlaces (text_str pd) = 1 := by
      rw [text_str_of_frac pd h]; exact decimalPlaces_fixed1 pd
    rw [heq, decimalPlaces_intStr] at h1
    exact absurd h1 (by norm_num)

/-- Witness for C10: 11.2 and 11.7 share the filename stem
`4mmCircle-11mm`, and for 11.5 the engraved text "11.5" differs from
the filename's "11". -/
theorem C10_filename_truncation_witness :
    ratTrunc elevenPointTwo = ratTrunc elevenPointSeven ∧
    filename_base 4 elevenPointTwo = filename_base 4 elevenPointSeven ∧
    filename_base 4 elevenPointTwo = "4mmCircle-11mm" ∧
    elevenPointFive.den ≠ 1 ∧
    text_str elevenPointFive = "11.5" ∧
    intStr (ratTrunc elevenPointFive) = "11" ∧
    text_str elevenPointFive ≠ intStr (ratTrunc elevenPointFive) :=
  ⟨by decide,
    C10_filename_truncation.1 4 elevenPointTwo elevenPointSeven (by decide),
    by decide,
    by decide,
    text_str_elevenPointFive,
    by decide,
    C10_filename_truncation.2 elevenPointFive (by decide)⟩

/-- C2: the through-hole subtraction is performed iff
`hole_diameter > 0`; when performed it removes a cylindrical void of
radius `hole_diameter / 2` centred on the main axis spanning
`z ∈ [0, plate_thickness + cylinder_height]`; when
`hole_diameter ≤ 0` the hole step is omitted and the solid is exactly
the plate/cylinder union minus only the text recess. -/
theorem C2_hole_conditional (glyph : Glyph) (p : Params) :
    (0 < p.hole_diameter →
      holeStep p ∈ buildSteps p ∧
      ∀ v : Point3, v.1 ^ 2 + v.2.1 ^ 2 ≤ (p.hole_diameter / 2) ^ 2 →
        0 ≤ v.2.2 → v.2.2 ≤ p.plate_thickness + p.cylinder_height →
        v ∉ solid glyph p) ∧
    (p.hole_diameter ≤ 0 →
      holeStep p ∉ buildSteps p ∧
      solid glyph p =
        (((∅ : Set Point3) ∪ stepPrism glyph (plateStep p)) ∪
          stepPrism glyph (cylinderStep p)) \ stepPrism glyph (textStep p)) := by
  constructor
  · intro h
    refine ⟨by simp [buildSteps, h], ?_⟩
    intro v hdisk h0 h1 hv
    rw [mem_solid_iff] at hv
    refine hv.2.1 h ?_
    simp only [stepPrism, holeStep, sketchRegion, hole_radius, Set.mem_setOf_eq]
    exact ⟨hdisk, h0, by linarith⟩
  · intro h
    have hn : ¬ 0 < p.hole_diameter := not_lt.2 h
    refine ⟨?_, solid_eq_of_nonpos glyph p hn⟩
    simp [buildSteps, hn, holeStep, plateStep, cylinderStep, textStep]

/-- Witness for C2 at the default parameters (hole diameter 1): the
hole step is present and the axis point (0, 0, 1) is not in the
solid. -/
theorem C2_hole_conditional_witness :
    0 < defaultParams.hole_diameter ∧
    holeStep defaultParams ∈ buildSteps defaultParams ∧
    ((0 : ℚ), (0 : ℚ), (1 : ℚ)) ∉ solid boxGlyph defaultParams :=
  ⟨by norm_num [defaultParams],
    ((C2_hole_conditional boxGlyph defaultParams).1 (by norm_num [defaultParams])).1,
    ((C2_hole_conditional boxGlyph defaultParams).1 (by norm_num [defaultParams])).2
      ((0 : ℚ), (0 : ℚ), (1 : ℚ))
      (by norm_num [defaultParams]) (by norm_num) (by norm_num [defaultParams])⟩

/-- C1: for valid parameters (positive cylinder radius below the plate
radius, hole radius below the cylinder radius, positive thickness and
height) and any font whose glyphs fit their em box, subtractive steps
only remove material, the solid lies between `z = 0` and
`z = plate_thickness + cylinder_height`, and both extremes are
attained — the total height is exactly
`plate_thickness + cylinder_height`. -/
theorem C1_total_height (glyph : Glyph) (p : Params)
    (hg : BoundedGlyph glyph)
    (hc0 : 0 < cylinder_radius p)
    (hcp : cylinder_radius p < plate_radius p)
    (hhc : hole_radius p < cylinder_radius p)
    (hpt : 0 < p.plate_thickness)
    (hch : 0 < p.cylinder_height) :
    (∀ S st, st.mode = ExtrudeMode.subtract → applyStep glyph S st ⊆ S) ∧
    (∀ v ∈ solid glyph p,
      0 ≤ v.2.2 ∧ v.2.2 ≤ p.plate_thickness + p.cylinder_height) ∧
    (∃ v ∈ solid glyph p, v.2.2 = 0) ∧
    (∃ v ∈ solid glyph p, v.2.2 = p.plate_thickness + p.cylinder_height) := by
  have hoy1 : 0 < text_offset_y p := by rw [text_offset_y]; linarith
  have hoy2 : text_offset_y p < plate_radius p := by rw [text_offset_y]; linarith
  have hoy3 : cylinder_radius p < text_offset_y p := by rw [text_offset_y]; linarith
  have hfs : font_size p = (plate_radius p - cylinder_radius p) * (3/5) := rfl
  refine ⟨?_, ?_, ?_, ?_⟩
  · intro S st hm
    rw [applyStep, if_neg (by rw [hm]; intro hc; cases hc)]
    exact Set.diff_subset
  · intro v hv
    rw [mem_solid_iff] at hv
    rcases hv.1 with h | h
    · simp only [stepPrism, plateStep, sketchRegion, Set.mem_setOf_eq] at h
      exact ⟨h.2.1, by linarith [h.2.2]⟩
    · simp only [stepPrism, cylinderStep, sketchRegion, Set.mem_setOf_eq] at h
      exact ⟨by linarith [h.2.1], by linarith [h.2.2]⟩
  · -- bottom of the plate is attained at (0, -text_offset_y, 0)
    refine ⟨⟨0, -text_offset_y p, 0⟩, ?_, rfl⟩
    rw [mem_solid_iff]
    refine ⟨Or.inl ?_, ?_, ?_⟩
    · simp only [stepPrism, plateStep, sketchRegion, Set.mem_setOf_eq]
      refine ⟨?_, le_refl 0, by linarith⟩
      nlinarith
    · intro hhd
      have hhr : 0 < hole_radius p := by rw [hole_radius]; linarith
      intro hmem
      simp only [stepPrism, holeStep, sketchRegion, Set.mem_setOf_eq] at hmem
      nlinarith [hmem.1]
    · intro hmem
      simp only [stepPrism, textStep, sketchRegion, Set.mem_setOf_eq] at hmem
      have hb := hg _ _ _ hmem.1
      rw [abs_le] at hb
      rw [hfs] at hb
      have h2 : -((plate_radius p - cylinder_radius p) * (3/5) / 2) ≤
          -text_offset_y p - text_offset_y p := hb.1
      have hoyd : text_offset_y p = (cylinder_radius p + plate_radius p) / 2 := rfl
      linarith
  · -- the top of the cylinder is attained between hole and cylinder radius
    refine ⟨⟨0, (max (hole_radius p) 0 + cylinder_radius p) / 2,
      p.plate_thickness + p.cylinder_height⟩, ?_, rfl⟩
    have hm0 : 0 ≤ max (hole_radius p) 0 := le_max_right _ _
    have hmc : max (hole_radius p) 0 < cylinder_radius p := max_lt hhc hc0
    rw [mem_solid_iff]
    refine ⟨Or.inr ?_, ?_, ?_⟩
    · simp only [stepPrism, cylinderStep, sketchRegion, Set.mem_setOf_eq]
      refine ⟨?_, by linarith, le_refl _⟩
      nlinarith
    · intro hhd
      have hhr : 0 < hole_radius p := by rw [hole_radius]; linarith
      have hrm : hole_radius p ≤ max (hole_radius p) 0 := le_max_left _ _
      intro hmem
      simp only [stepPrism, holeStep, sketchRegion, Set.mem_setOf_eq] at hmem
      nlinarith [hmem.1]
    · intro hmem
      simp only [stepPrism, textStep, sketchRegion, Set.mem_setOf_eq] at hmem
      have hb := hg _ _ _ hmem.1
      rw [abs_le] at hb
      rw [hfs] at hb
      have h2 : -((plate_radius p - cylinder_radius p) * (3/5) / 2) ≤
          (max (hole_radius p) 0 + cylinder_radius p) / 2 - text_offset_y p := hb.1
      have hoyd : text_offset_y p = (cylinder_radius p + plate_radius p) / 2 := rfl
      linarith

/-- Witness for C1 at the default parameters with the box-glyph font
model. -/
theorem C1_total_height_witness :
    BoundedGlyph boxGlyph ∧
    0 < cylinder_radius defaultParams ∧
    cylinder_radius defaultParams < plate_radius defaultParams ∧
    hole_radius defaultParams < cylinder_radius defaultParams ∧
    0 < defaultParams.plate_thickness ∧
    0 < defaultParams.cylinder_height ∧
    ((∀ S st, st.mode = ExtrudeMode.subtract →
        applyStep boxGlyph S st ⊆ S) ∧
      (∀ v ∈ solid boxGlyph defaultParams,
        0 ≤ v.2.2 ∧
          v.2.2 ≤ defaultParams.plate_thickness + defaultParams.cylinder_height) ∧
      (∃ v ∈ solid boxGlyph defaultParams, v.2.2 = 0) ∧
      (∃ v ∈ solid boxGlyph defaultParams,
        v.2.2 = defaultParams.plate_thickness + defaultParams.cylinder_height)) :=
  ⟨fun _ _ _ hq => hq.2,
    by norm_num [cylinder_radius, defaultParams],
    by norm_num [cylinder_radius, plate_radius, defaultParams],
    by norm_num [hole_radius, cylinder_radius, defaultParams],
    by norm_num [defaultParams],
    by norm_num [defaultParams],
    C1_total_height boxGlyph defaultParams (fun _ _ _ hq => hq.2)
      (by norm_num [cylinder_radius, defaultParams])
      (by norm_num [cylinder_radius, plate_radius, defaultParams])
      (by norm_num [hole_radius, cylinder_radius, defaultParams])
      (by norm_num [defaultParams])
      (by norm_num [defaultParams])⟩

end CirclePrints
